import Mathlib

/-!
Verification development for the saviour telemetry and alerting platform.

The Go sources are shallowly embedded:
* timestamps are natural numbers (ticks of the wall clock, matching Go
  nanoseconds); durations are integers, as Go `time.Duration` is a signed
  integer count of nanoseconds, and duration comparisons are `Int`
  comparisons;
* `float64` percentage values are embedded as rationals (all comparisons in
  the sources are order comparisons of exactly representable values);
* Go maps are embedded as association lists together with lookup and insert
  helpers mimicking map semantics (insert overwrites; lookup of a key built
  from a list keeps the last binding, as Go map insertion does);
* effectful ingredients are made explicit parameters: `time.Now()` becomes a
  `now : Nat` argument, `uuid.New().String()` becomes a fresh-name supply
  `uuid : Nat -> String` threaded with a counter, and the `Notifier`
  interface becomes a function `notify : Alert -> Bool` returning delivery
  success;
* the human-readable `Message` string and the free-form `Details` map of an
  alert are omitted from the embedding: no verified property mentions them
  and they influence no control flow.
-/

namespace Saviour

/-- Lookup in an association list, first binding wins (Go map reads are
modelled on lists that never hold duplicate keys; `insertA` preserves that). -/
def lookupA {α : Type} (l : List (String × α)) (k : String) : Option α :=
  (l.find? (fun p => p.1 == k)).map Prod.snd

/-- Map-style insert: overwrite the binding if the key is present, otherwise
append it. -/
def insertA {α : Type} (l : List (String × α)) (k : String) (v : α) : List (String × α) :=
  if (l.find? (fun p => p.1 == k)).isSome then
    l.map (fun p => if p.1 == k then (k, v) else p)
  else
    l ++ [(k, v)]

theorem insertA_of_found {α : Type} (l : List (String × α)) (k : String) (v : α)
    (h : (l.find? (fun p => p.1 == k)).isSome) :
    insertA l k v = l.map (fun p => if p.1 == k then (k, v) else p) := by
  simp [insertA, h]

theorem insertA_of_not_found {α : Type} (l : List (String × α)) (k : String) (v : α)
    (h : ¬(l.find? (fun p => p.1 == k)).isSome) :
    insertA l k v = l ++ [(k, v)] := by
  simp only [insertA, if_neg h]

theorem find?_map_overwrite {α : Type} (k : String) (v : α) :
    ∀ l : List (String × α), (l.find? (fun p => p.1 == k)).isSome →
      ((l.map (fun p => if p.1 == k then (k, v) else p)).find?
        (fun p => p.1 == k)).map Prod.snd = some v
  | [], h => by simp at h
  | p :: rest, h => by
    by_cases hk : (p.1 == k) = true
    · simp only [List.map_cons, if_pos hk]
      rw [@List.find?_cons_of_pos (String × α) (fun q => q.1 == k) (k, v) _ (by simp)]
      simp
    · simp only [List.map_cons, if_neg hk]
      rw [@List.find?_cons_of_neg (String × α) (fun q => q.1 == k) p _ hk]
      rw [@List.find?_cons_of_neg (String × α) (fun q => q.1 == k) p _ hk] at h
      exact find?_map_overwrite k v rest h

theorem find?_append_missing {α : Type} (k : String) (v : α) :
    ∀ l : List (String × α), ¬(l.find? (fun p => p.1 == k)).isSome →
      ((l ++ [(k, v)]).find? (fun p => p.1 == k)).map Prod.snd = some v
  | [], _ => by
    simp only [List.nil_append]
    rw [@List.find?_cons_of_pos (String × α) (fun q => q.1 == k) (k, v) _ (by simp)]
    simp
  | p :: rest, h => by
    by_cases hk : (p.1 == k) = true
    · exact absurd
        (by rw [@List.find?_cons_of_pos (String × α) (fun q => q.1 == k) p _ hk]; simp) h
    · simp only [List.cons_append]
      rw [@List.find?_cons_of_neg (String × α) (fun q => q.1 == k) p _ hk]
      rw [@List.find?_cons_of_neg (String × α) (fun q => q.1 == k) p _ hk] at h
      exact find?_append_missing k v rest h

theorem find?_map_overwrite_ne {α : Type} (k k' : String) (v : α) (hne : k' ≠ k) :
    ∀ l : List (String × α),
      ((l.map (fun p => if p.1 == k then (k, v) else p)).find?
        (fun p => p.1 == k')).map Prod.snd
        = (l.find? (fun p => p.1 == k')).map Prod.snd
  | [] => by simp
  | p :: rest => by
    by_cases hk : (p.1 == k) = true
    · have hp : p.1 = k := by simpa using hk
      simp only [List.map_cons, if_pos hk]
      rw [@List.find?_cons_of_neg (String × α) (fun q => q.1 == k') (k, v) _
            (by simp only [beq_iff_eq]; exact fun h => hne h.symm)]
      rw [@List.find?_cons_of_neg (String × α) (fun q => q.1 == k') p _
            (by simp only [beq_iff_eq, hp]; exact fun h => hne h.symm)]
      exact find?_map_overwrite_ne k k' v hne rest
    · simp only [List.map_cons, if_neg hk]
      by_cases hk2 : (p.1 == k') = true
      · rw [@List.find?_cons_of_pos (String × α) (fun q => q.1 == k') p _ hk2,
            @List.find?_cons_of_pos (String × α) (fun q => q.1 == k') p _ hk2]
      · rw [@List.find?_cons_of_neg (String × α) (fun q => q.1 == k') p _ hk2,
            @List.find?_cons_of_neg (String × α) (fun q => q.1 == k') p _ hk2]
        exact find?_map_overwrite_ne k k' v hne rest

theorem find?_append_single_ne {α : Type} (k k' : String) (v : α) (hne : k' ≠ k) :
    ∀ l : List (String × α),
      ((l ++ [(k, v)]).find? (fun p => p.1 == k')).map Prod.snd
        = (l.find? (fun p => p.1 == k')).map Prod.snd
  | [] => by
    simp only [List.nil_append]
    rw [@List.find?_cons_of_neg (String × α) (fun q => q.1 == k') (k, v) _
          (by simp only [beq_iff_eq]; exact fun h => hne h.symm)]
  | p :: rest => by
    by_cases hk2 : (p.1 == k') = true
    · simp only [List.cons_append]
      rw [@List.find?_cons_of_pos (String × α) (fun q => q.1 == k') p _ hk2,
          @List.find?_cons_of_pos (String × α) (fun q => q.1 == k') p _ hk2]
    · simp only [List.cons_append]
      rw [@List.find?_cons_of_neg (String × α) (fun q => q.1 == k') p _ hk2,
          @List.find?_cons_of_neg (String × α) (fun q => q.1 == k') p _ hk2]
      exact find?_append_single_ne k k' v hne rest

theorem lookupA_insertA_self {α : Type} (l : List (String × α)) (k : String) (v : α) :
    lookupA (insertA l k v) k = some v := by
  by_cases h : (l.find? (fun p => p.1 == k)).isSome
  · rw [show insertA l k v = l.map (fun p => if p.1 == k then (k, v) else p) from
      insertA_of_found l k v h]
    exact find?_map_overwrite k v l h
  · rw [show insertA l k v = l ++ [(k, v)] from insertA_of_not_found l k v h]
    exact find?_append_missing k v l h

theorem lookupA_insertA_ne {α : Type} (l : List (String × α)) (k k' : String) (v : α)
    (hne : k' ≠ k) : lookupA (insertA l k v) k' = lookupA l k' := by
  by_cases h : (l.find? (fun p => p.1 == k)).isSome
  · rw [show insertA l k v = l.map (fun p => if p.1 == k then (k, v) else p) from
      insertA_of_found l k v h]
    exact find?_map_overwrite_ne k k' v hne l
  · rw [show insertA l k v = l ++ [(k, v)] from insertA_of_not_found l k v h]
    exact find?_append_single_ne k k' v hne l

namespace Metrics

/-- pkg/metrics ContainerMetrics, restricted to the fields the embedded code
reads (identity, state, health, restart count and the resource numbers used by
the server-side conversion). -/
structure ContainerMetrics where
  id : String
  name : String
  image : String
  state : String
  health : String
  restartCount : Nat
  cpuPercent : ℚ
  memoryUsage : Nat
  memoryLimit : Nat
deriving Repr, DecidableEq

/-- pkg/metrics CPUMetrics (overall usage only; per-core and load averages are
never read by the embedded code). -/
structure CPUMetrics where
  usagePercent : ℚ
deriving Repr, DecidableEq

/-- pkg/metrics MemoryMetrics (used percentage only). -/
structure MemoryMetrics where
  usedPercent : ℚ
deriving Repr, DecidableEq

/-- pkg/metrics DiskMetrics (mount point and used percentage only). -/
structure DiskMetrics where
  mountPoint : String
  usedPercent : ℚ
deriving Repr, DecidableEq

/-- pkg/metrics SystemMetrics, restricted to the fields read serverside. -/
structure SystemMetrics where
  agentName : String
  cpu : CPUMetrics
  memory : MemoryMetrics
  disk : List DiskMetrics
  containers : List ContainerMetrics
deriving Repr, DecidableEq

end Metrics

namespace Server

/-- internal/server Alert (Message and Details omitted, see the file header). -/
structure Alert where
  id : String
  agentName : String
  alertType : String
  severity : String
  triggeredAt : Nat
  resolvedAt : Option Nat
  status : String
  notifiedAt : Option Nat
deriving Repr, DecidableEq

/-- internal/server ContainerState. -/
structure ContainerState where
  id : String
  name : String
  image : String
  state : String
  previousState : String
  lastStateChange : Nat
  restartCount : Nat
  alertState : String
  health : String
  cpuPercent : ℚ
  memoryPercent : ℚ
  memoryUsage : Nat
  memoryLimit : Nat
deriving Repr, DecidableEq

/-- internal/server ServerState. -/
structure ServerState where
  agentName : String
  ec2InstanceID : String
  lastSeen : Nat
  status : String
  systemMetrics : Metrics.SystemMetrics
  containers : List ContainerState
  activeAlerts : List Alert
deriving Repr, DecidableEq

/-- internal/server StateStore: the two maps (agents by name, alerts by id),
embedded as association lists. -/
structure StateStore where
  agents : List (String × ServerState)
  alerts : List (String × Alert)
deriving Repr, DecidableEq

/-- NewStateStore. -/
def NewStateStore : StateStore := { agents := [], alerts := [] }

/-- The prevMap built by mergeContainerStates: Go map insertion makes the last
duplicate id win, hence the reversed search. -/
def prevLookup (previous : List ContainerState) (id : String) : Option ContainerState :=
  previous.reverse.find? (fun c => c.id == id)

/-- Body of the merge loop of mergeContainerStates for one current container. -/
def mergeOne (now : Nat) (previous : List ContainerState) (curr : ContainerState) :
    ContainerState :=
  match prevLookup previous curr.id with
  | some prev =>
    if curr.state ≠ prev.state then
      { curr with previousState := prev.state, lastStateChange := now }
    else
      { curr with previousState := prev.previousState,
                  lastStateChange := prev.lastStateChange }
  | none => { curr with lastStateChange := now }

/-- mergeContainerStates: merge previous and current container states to
detect state changes (iterates current in order). -/
def mergeContainerStates (now : Nat) (previous current : List ContainerState) :
    List ContainerState :=
  current.map (mergeOne now previous)

/-- UpdateAgent: upsert agent state by name; on an existing entry, merge the
container lists and carry the existing active alerts forward, then stamp
status online and last-seen now. -/
def UpdateAgent (s : StateStore) (now : Nat) (state : ServerState) : StateStore :=
  let state' :=
    match lookupA s.agents state.agentName with
    | some existing =>
      { state with
          containers := mergeContainerStates now existing.containers state.containers,
          activeAlerts := existing.activeAlerts }
    | none => state
  let state'' := { state' with status := "online", lastSeen := now }
  { s with agents := insertA s.agents state.agentName state'' }

/-- UpdateHeartbeat: touch last-seen/status, creating a minimal record for
heartbeat-only agents. -/
def UpdateHeartbeat (s : StateStore) (now : Nat) (agentName : String) : StateStore :=
  let state :=
    match lookupA s.agents agentName with
    | some st => st
    | none =>
      { agentName := agentName, ec2InstanceID := "", lastSeen := 0, status := "online",
        systemMetrics :=
          { agentName := "", cpu := { usagePercent := 0 }, memory := { usedPercent := 0 },
            disk := [], containers := [] },
        containers := [], activeAlerts := [] }
  { s with agents := insertA s.agents agentName { state with lastSeen := now, status := "online" } }

/-- The scan condition of CheckOfflineAgents: currently online and silent for
longer than the timeout. -/
def staleOnline (now : Nat) (timeout : Int) (st : ServerState) : Bool :=
  st.status == "online" && decide ((now : Int) - (st.lastSeen : Int) > timeout)

/-- The loop body of CheckOfflineAgents over the stored entries (the Go code
iterates the agents map; map iteration order is immaterial, the entry list
order is used). Returns the updated entries and the flipped agents. -/
def offlineSweep (now : Nat) (timeout : Int) :
    List (String × ServerState) → List (String × ServerState) × List ServerState
  | [] => ([], [])
  | (k, st) :: rest =>
    let (rest', off) := offlineSweep now timeout rest
    if staleOnline now timeout st then
      let st' := { st with status := "offline" }
      ((k, st') :: rest', st' :: off)
    else
      ((k, st) :: rest', off)

/-- CheckOfflineAgents: flip stale online agents to offline in place and
return them (as copies). -/
def CheckOfflineAgents (s : StateStore) (now : Nat) (timeout : Int) :
    StateStore × List ServerState :=
  let (agents', off) := offlineSweep now timeout s.agents
  ({ s with agents := agents' }, off)

/-- AddAlert: insert into the alert index and append to the owning agent's
active alerts (the append is skipped when the agent is unknown). -/
def AddAlert (s : StateStore) (alert : Alert) : StateStore :=
  let alerts' := insertA s.alerts alert.id alert
  match lookupA s.agents alert.agentName with
  | some st =>
    { agents := insertA s.agents alert.agentName
        { st with activeAlerts := st.activeAlerts ++ [alert] },
      alerts := alerts' }
  | none => { s with alerts := alerts' }

end Server

namespace Alerting

/-- internal/alerting CPUMetrics. -/
structure CPUMetrics where
  usagePercent : ℚ
deriving Repr, DecidableEq

/-- internal/alerting MemoryMetrics. -/
structure MemoryMetrics where
  usedPercent : ℚ
deriving Repr, DecidableEq

/-- internal/alerting DiskMetrics. -/
structure DiskMetrics where
  mountPoint : String
  usedPercent : ℚ
deriving Repr, DecidableEq

/-- internal/alerting SystemMetrics. -/
structure SystemMetrics where
  cpu : CPUMetrics
  memory : MemoryMetrics
  disk : List DiskMetrics
deriving Repr, DecidableEq

/-- internal/alerting ContainerState. -/
structure ContainerState where
  id : String
  name : String
  state : String
  previousState : String
  health : String
  cpuPercent : ℚ
  memoryPercent : ℚ
  restartCount : Nat
deriving Repr, DecidableEq

/-- internal/alerting Alert (Message and Details omitted, see the file header). -/
structure Alert where
  id : String
  agentName : String
  alertType : String
  severity : String
  triggeredAt : Nat
  resolvedAt : Option Nat
  status : String
  notifiedAt : Option Nat
deriving Repr, DecidableEq

/-- internal/alerting ServerState (the engine-facing view of an agent). -/
structure ServerState where
  agentName : String
  status : String
  lastSeen : Nat
  systemMetrics : SystemMetrics
  containers : List ContainerState
  activeAlerts : List Alert
deriving Repr, DecidableEq

/-- internal/alerting Config. -/
structure Config where
  enabled : Bool
  checkInterval : Int
  heartbeatTimeout : Int
  deduplicationEnabled : Bool
  deduplicationWindow : Int
  systemCPUThreshold : ℚ
  systemMemoryThreshold : ℚ
  systemDiskThreshold : ℚ
deriving Repr, DecidableEq

/-- The engine's mutable state, with its StateStore collaborator embedded as
the interface the engine sees: `recentAlerts` is the deduplication map,
`added` is the sequence of alerts the engine has handed to the store's
AddAlert (the store retains the alert object, so a later NotifiedAt write by
the engine is visible through it), and `uuids` is the counter of the
fresh-uuid supply. -/
structure EngineState where
  recentAlerts : List (String × Nat)
  added : List Alert
  uuids : Nat
deriving Repr, DecidableEq

/-- shouldSendAlert: deduplication gate. -/
def shouldSendAlert (cfg : Config) (recentAlerts : List (String × Nat)) (now : Nat)
    (alertKey : String) : Bool :=
  if !cfg.deduplicationEnabled then true
  else
    match lookupA recentAlerts alertKey with
    | none => true
    | some lastSent => decide ((now : Int) - (lastSent : Int) > cfg.deduplicationWindow)

/-- markAlertSent: record the key in the deduplication map. -/
def markAlertSent (recentAlerts : List (String × Nat)) (now : Nat) (alertKey : String) :
    List (String × Nat) :=
  insertA recentAlerts alertKey now

/-- An Alert literal as the engine constructs one (uuid id, triggered now,
active, never resolved or notified). -/
def mkAlert (id agentName alertType severity : String) (now : Nat) : Alert :=
  { id := id, agentName := agentName, alertType := alertType, severity := severity,
    triggeredAt := now, resolvedAt := none, status := "active", notifiedAt := none }

/-- Engine.sendAlert: persist through AddAlert, then attempt notification; on
success stamp NotifiedAt on the (store-retained) alert and mark the dedup key;
on failure only log. -/
def sendAlert (notify : Alert → Bool) (now : Nat) (es : EngineState) (alert : Alert)
    (alertKey : String) : EngineState :=
  if notify alert then
    { es with added := es.added ++ [{ alert with notifiedAt := some now }],
              recentAlerts := markAlertSent es.recentAlerts now alertKey }
  else
    { es with added := es.added ++ [alert] }

/-- Body of Engine.checkOfflineAgents for one returned offline agent (the
source inlines the sendAlert pattern here). -/
def offlineStep (cfg : Config) (notify : Alert → Bool) (uuid : Nat → String) (now : Nat)
    (es : EngineState) (agent : ServerState) : EngineState :=
  let alertKey := "agent_offline:" ++ agent.agentName
  if shouldSendAlert cfg es.recentAlerts now alertKey then
    let alert := mkAlert (uuid es.uuids) agent.agentName "agent_offline" "critical" now
    let es := { es with uuids := es.uuids + 1 }
    if notify alert then
      { es with added := es.added ++ [{ alert with notifiedAt := some now }],
                recentAlerts := markAlertSent es.recentAlerts now alertKey }
    else
      { es with added := es.added ++ [alert] }
  else es

/-- Engine.checkOfflineAgents, applied to the list the store's
CheckOfflineAgents(heartbeatTimeout) returned. -/
def checkOfflineAgents (cfg : Config) (notify : Alert → Bool) (uuid : Nat → String)
    (now : Nat) (offline : List ServerState) (es : EngineState) : EngineState :=
  offline.foldl (offlineStep cfg notify uuid now) es

/-- The CPU branch of Engine.checkSystemAlerts. -/
def checkSystemCPU (cfg : Config) (notify : Alert → Bool) (uuid : Nat → String) (now : Nat)
    (es : EngineState) (agent : ServerState) : EngineState :=
  if 0 < cfg.systemCPUThreshold ∧
      cfg.systemCPUThreshold < agent.systemMetrics.cpu.usagePercent then
    let alertKey := "system_cpu:" ++ agent.agentName
    if shouldSendAlert cfg es.recentAlerts now alertKey then
      sendAlert notify now { es with uuids := es.uuids + 1 }
        (mkAlert (uuid es.uuids) agent.agentName "system_cpu_high" "warning" now) alertKey
    else es
  else es

/-- The memory branch of Engine.checkSystemAlerts. -/
def checkSystemMemory (cfg : Config) (notify : Alert → Bool) (uuid : Nat → String)
    (now : Nat) (es : EngineState) (agent : ServerState) : EngineState :=
  if 0 < cfg.systemMemoryThreshold ∧
      cfg.systemMemoryThreshold < agent.systemMetrics.memory.usedPercent then
    let alertKey := "system_memory:" ++ agent.agentName
    if shouldSendAlert cfg es.recentAlerts now alertKey then
      sendAlert notify now { es with uuids := es.uuids + 1 }
        (mkAlert (uuid es.uuids) agent.agentName "system_memory_high" "warning" now) alertKey
    else es
  else es

/-- The per-mount-point body of the disk loop of Engine.checkSystemAlerts. -/
def checkSystemDiskOne (cfg : Config) (notify : Alert → Bool) (uuid : Nat → String)
    (now : Nat) (agent : ServerState) (es : EngineState) (disk : DiskMetrics) :
    EngineState :=
  if 0 < cfg.systemDiskThreshold ∧ cfg.systemDiskThreshold < disk.usedPercent then
    let alertKey := "system_disk:" ++ agent.agentName ++ ":" ++ disk.mountPoint
    if shouldSendAlert cfg es.recentAlerts now alertKey then
      sendAlert notify now { es with uuids := es.uuids + 1 }
        (mkAlert (uuid es.uuids) agent.agentName "system_disk_high" "critical" now) alertKey
    else es
  else es

/-- Engine.checkSystemAlerts: CPU, memory, then one disk check per mount. -/
def checkSystemAlerts (cfg : Config) (notify : Alert → Bool) (uuid : Nat → String)
    (now : Nat) (es : EngineState) (agent : ServerState) : EngineState :=
  let es := checkSystemCPU cfg notify uuid now es agent
  let es := checkSystemMemory cfg notify uuid now es agent
  agent.systemMetrics.disk.foldl (checkSystemDiskOne cfg notify uuid now agent) es

/-- Body of the per-container loop of Engine.checkContainerAlerts: stopped
transition, unhealthy, high CPU, high memory, in source order. -/
def checkContainerStep (cfg : Config) (notify : Alert → Bool) (uuid : Nat → String)
    (now : Nat) (agent : ServerState) (es : EngineState) (container : ContainerState) :
    EngineState :=
  let es :=
    if container.previousState == "running" &&
        (container.state == "exited" || container.state == "dead") then
      let alertKey := "container_stopped:" ++ agent.agentName ++ ":" ++ container.id
      if shouldSendAlert cfg es.recentAlerts now alertKey then
        sendAlert notify now { es with uuids := es.uuids + 1 }
          (mkAlert (uuid es.uuids) agent.agentName "container_stopped" "critical" now)
          alertKey
      else es
    else es
  let es :=
    if container.health == "unhealthy" then
      let alertKey := "container_unhealthy:" ++ agent.agentName ++ ":" ++ container.id
      if shouldSendAlert cfg es.recentAlerts now alertKey then
        sendAlert notify now { es with uuids := es.uuids + 1 }
          (mkAlert (uuid es.uuids) agent.agentName "container_unhealthy" "warning" now)
          alertKey
      else es
    else es
  let es :=
    if (90 : ℚ) < container.cpuPercent then
      let alertKey := "container_cpu:" ++ agent.agentName ++ ":" ++ container.id
      if shouldSendAlert cfg es.recentAlerts now alertKey then
        sendAlert notify now { es with uuids := es.uuids + 1 }
          (mkAlert (uuid es.uuids) agent.agentName "container_cpu_high" "warning" now)
          alertKey
      else es
    else es
  if (95 : ℚ) < container.memoryPercent then
    let alertKey := "container_memory:" ++ agent.agentName ++ ":" ++ container.id
    if shouldSendAlert cfg es.recentAlerts now alertKey then
      sendAlert notify now { es with uuids := es.uuids + 1 }
        (mkAlert (uuid es.uuids) agent.agentName "container_memory_high" "critical" now)
        alertKey
    else es
  else es

/-- Engine.checkContainerAlerts. -/
def checkContainerAlerts (cfg : Config) (notify : Alert → Bool) (uuid : Nat → String)
    (now : Nat) (es : EngineState) (agent : ServerState) : EngineState :=
  agent.containers.foldl (checkContainerStep cfg notify uuid now agent) es

/-- Engine.cleanupDeduplication: drop dedup entries older than twice the
window. -/
def cleanupDeduplication (cfg : Config) (now : Nat) (recentAlerts : List (String × Nat)) :
    List (String × Nat) :=
  recentAlerts.filter
    (fun p => !decide ((now : Int) - (p.2 : Int) > cfg.deduplicationWindow * 2))

/-- What the engine reads from its StateStore interface in one cycle: the
list CheckOfflineAgents(heartbeatTimeout) returns, and the GetAllAgents
snapshot. -/
structure StoreView where
  offline : List ServerState
  agents : List ServerState
deriving Repr, DecidableEq

/-- Engine.checkAlerts: offline detection, then system and container checks
for every online agent, then the dedup sweep. -/
def checkAlerts (cfg : Config) (notify : Alert → Bool) (uuid : Nat → String) (now : Nat)
    (view : StoreView) (es : EngineState) : EngineState :=
  let es := checkOfflineAgents cfg notify uuid now view.offline es
  let es := view.agents.foldl
    (fun es agent =>
      if agent.status == "online" then
        checkContainerAlerts cfg notify uuid now
          (checkSystemAlerts cfg notify uuid now es agent) agent
      else es) es
  { es with recentAlerts := cleanupDeduplication cfg now es.recentAlerts }

end Alerting

namespace Server

/-- Go time.Second in nanoseconds. -/
def timeSecond : Int := 1000000000

/-- Go time.Minute in nanoseconds. -/
def timeMinute : Int := 60 * timeSecond

/-- internal/server ServerConfig. -/
structure ServerConfig where
  host : String
  port : Int
deriving Repr, DecidableEq

/-- internal/server AlertingConfig. -/
structure AlertingConfig where
  enabled : Bool
  checkInterval : Int
  heartbeatTimeout : Int
  deduplicationEnabled : Bool
  deduplicationWindow : Int
  systemCPUThreshold : ℚ
  systemMemoryThreshold : ℚ
  systemDiskThreshold : ℚ
deriving Repr, DecidableEq

/-- internal/server GoogleChatConfig. -/
structure GoogleChatConfig where
  enabled : Bool
  webhookURL : String
  dashboardURL : String
deriving Repr, DecidableEq

/-- internal/server APIKey. -/
structure APIKey where
  key : String
  name : String
  scopes : List String
deriving Repr, DecidableEq

/-- internal/server AuthConfig. -/
structure AuthConfig where
  apiKeys : List APIKey
deriving Repr, DecidableEq

/-- internal/server CORSConfig. -/
structure CORSConfig where
  enabled : Bool
  allowedOrigins : List String
  devMode : Bool
deriving Repr, DecidableEq

/-- internal/server Config. -/
structure Config where
  server : ServerConfig
  auth : AuthConfig
  alerting : AlertingConfig
  googleChat : GoogleChatConfig
  cors : CORSConfig
deriving Repr, DecidableEq

/-- The pure tail of LoadConfig: the defaults applied to whatever the YAML
unmarshal produced (reading and parsing the file are I/O and stay outside the
embedding; a zero field after unmarshal is indistinguishable from an absent
one, exactly as in Go). -/
def loadConfigDefaults (cfg : Config) : Config :=
  let cfg := if cfg.server.host = "" then
    { cfg with server := { cfg.server with host := "0.0.0.0" } } else cfg
  let cfg := if cfg.server.port = 0 then
    { cfg with server := { cfg.server with port := 8080 } } else cfg
  let cfg := if cfg.alerting.checkInterval = 0 then
    { cfg with alerting := { cfg.alerting with checkInterval := 30 * timeSecond } } else cfg
  let cfg := if cfg.alerting.heartbeatTimeout = 0 then
    { cfg with alerting := { cfg.alerting with heartbeatTimeout := 2 * timeMinute } } else cfg
  let cfg := if cfg.alerting.deduplicationWindow = 0 then
    { cfg with alerting := { cfg.alerting with deduplicationWindow := 5 * timeMinute } }
    else cfg
  let cfg := if cfg.alerting.systemCPUThreshold = 0 then
    { cfg with alerting := { cfg.alerting with systemCPUThreshold := 80 } } else cfg
  let cfg := if cfg.alerting.systemMemoryThreshold = 0 then
    { cfg with alerting := { cfg.alerting with systemMemoryThreshold := 85 } } else cfg
  let cfg := if cfg.alerting.systemDiskThreshold = 0 then
    { cfg with alerting := { cfg.alerting with systemDiskThreshold := 90 } } else cfg
  cfg

/-- The alerting.Config literal built in cmd/server main from the loaded
server configuration. -/
def toAlertingConfig (a : AlertingConfig) : Alerting.Config :=
  { enabled := a.enabled,
    checkInterval := a.checkInterval,
    heartbeatTimeout := a.heartbeatTimeout,
    deduplicationEnabled := a.deduplicationEnabled,
    deduplicationWindow := a.deduplicationWindow,
    systemCPUThreshold := a.systemCPUThreshold,
    systemMemoryThreshold := a.systemMemoryThreshold,
    systemDiskThreshold := a.systemDiskThreshold }

/-- AlertingAdapter: the per-container body of convertServerState. -/
def convertContainerState (c : ContainerState) : Alerting.ContainerState :=
  { id := c.id, name := c.name, state := c.state, previousState := c.previousState,
    health := c.health, cpuPercent := c.cpuPercent, memoryPercent := c.memoryPercent,
    restartCount := c.restartCount }

/-- AlertingAdapter: the per-alert body of convertServerState. -/
def convertAlert (a : Alert) : Alerting.Alert :=
  { id := a.id, agentName := a.agentName, alertType := a.alertType, severity := a.severity,
    triggeredAt := a.triggeredAt, resolvedAt := a.resolvedAt, status := a.status,
    notifiedAt := a.notifiedAt }

/-- AlertingAdapter.convertDiskMetrics. -/
def convertDiskMetrics (disks : List Metrics.DiskMetrics) : List Alerting.DiskMetrics :=
  disks.map (fun d => { mountPoint := d.mountPoint, usedPercent := d.usedPercent })

/-- AlertingAdapter.convertServerState. -/
def convertServerState (state : ServerState) : Alerting.ServerState :=
  { agentName := state.agentName,
    status := state.status,
    lastSeen := state.lastSeen,
    systemMetrics :=
      { cpu := { usagePercent := state.systemMetrics.cpu.usagePercent },
        memory := { usedPercent := state.systemMetrics.memory.usedPercent },
        disk := convertDiskMetrics state.systemMetrics.disk },
    containers := state.containers.map convertContainerState,
    activeAlerts := state.activeAlerts.map convertAlert }

end Server

namespace Api

/-- internal/api MaxRequestSize (10MB), a Go int64 compared against
ContentLength. -/
def maxRequestSize : Int := 10 * 1024 * 1024

/-- internal/server EC2Metadata, restricted to the field the handler reads. -/
structure EC2Metadata where
  instanceID : String
deriving Repr, DecidableEq

/-- internal/server MetricsPushPayload. -/
structure MetricsPushPayload where
  agentName : String
  timestamp : Nat
  ec2Metadata : Option EC2Metadata
  systemMetrics : Metrics.SystemMetrics
deriving Repr, DecidableEq

/-- An inbound HTTP request as the metrics-push handler observes it. The body
is characterised by what the reader stack can see of it: its wire size (the
bytes http.MaxBytesReader counts), whether a gzip header parses when the
Content-Encoding header mentions gzip, the size of the fully decompressed
content (equal to the wire size for an uncompressed body), and the JSON parse
result of that content. -/
structure Request where
  method : String
  contentLength : Int
  contentEncoding : String
  wireSize : Nat
  gzipHeaderOk : Bool
  decompressedSize : Nat
  payload : Option MetricsPushPayload
deriving Repr, DecidableEq

/-- Substring occurrence over character lists (structural recursion). -/
def containsSub {α : Type} [BEq α] (sub : List α) : List α → Bool
  | [] => List.isPrefixOf sub []
  | b :: bs => List.isPrefixOf sub (b :: bs) || containsSub sub bs

/-- strings.Contains, over the character lists of the strings. -/
def containsSubstring (s sub : String) : Bool :=
  containsSub sub.data s.data

/-- readBody: wrap the body in a gzip reader when the Content-Encoding header
contains "gzip" (gzip.NewReader fails on a bad header); the reader stack is
otherwise the raw body. Returns whether body construction succeeded; note
that no part of it consults the decompressed size. -/
def readBodyOk (r : Request) : Bool :=
  if containsSubstring r.contentEncoding "gzip" then r.gzipHeaderOk else true

/-- calculateMemoryPercent: guarded percentage of usage over limit. -/
def calculateMemoryPercent (usage limit : Nat) : ℚ :=
  if limit = 0 then 0
  else (usage : ℚ) / (limit : ℚ) * 100

/-- The per-container body of Handler.convertContainers. Fields the Go struct
literal leaves unset (PreviousState, LastStateChange, AlertState) get their
zero values. -/
def convertOneContainer (c : Metrics.ContainerMetrics) : Server.ContainerState :=
  { id := c.id, name := c.name, image := c.image, state := c.state,
    previousState := "", lastStateChange := 0, restartCount := c.restartCount,
    alertState := "", health := c.health, cpuPercent := c.cpuPercent,
    memoryPercent := calculateMemoryPercent c.memoryUsage c.memoryLimit,
    memoryUsage := c.memoryUsage, memoryLimit := c.memoryLimit }

/-- Handler.convertContainers. -/
def convertContainers (containers : List Metrics.ContainerMetrics) :
    List Server.ContainerState :=
  containers.map convertOneContainer

/-- Handler.getEC2InstanceID. -/
def getEC2InstanceID : Option EC2Metadata → String
  | some m => m.instanceID
  | none => ""

/-- Handler.HandleMetricsPush. Returns the HTTP status written and the state
store after the call. A body whose wire size exceeds the MaxBytesReader cap
makes the JSON decoder fail mid-read (400); nothing ever bounds the
decompressed size. -/
def handleMetricsPush (now : Nat) (s : Server.StateStore) (r : Request) :
    Nat × Server.StateStore :=
  if r.method ≠ "POST" then (405, s)
  else if maxRequestSize < r.contentLength then (413, s)
  else if !readBodyOk r then (400, s)
  else if maxRequestSize < (r.wireSize : Int) then (400, s)
  else
    match r.payload with
    | none => (400, s)
    | some payload =>
      if payload.agentName = "" then (400, s)
      else
        let state : Server.ServerState :=
          { agentName := payload.agentName,
            ec2InstanceID := getEC2InstanceID payload.ec2Metadata,
            lastSeen := 0, status := "",
            systemMetrics := payload.systemMetrics,
            containers := convertContainers payload.systemMetrics.containers,
            activeAlerts := [] }
        (200, Server.UpdateAgent s now state)

end Api

namespace Agent

/-- The failure of one send attempt: an HTTP error response (HTTPError) or a
transport-level error. -/
inductive SendError
  | http (status : Nat) (message : String)
  | transport
deriving Repr, DecidableEq

/-- isRetryable: 5xx and 429 HTTP errors, and every network error. -/
def isRetryable : SendError → Bool
  | .http status _ => decide (500 ≤ status) || decide (status = 429)
  | .transport => true

/-- The outcome of sendWithRetry. -/
inductive RetryResult
  | ok
  | ctxErr
  | permanent (e : SendError)
  | exhausted (last : Option SendError)
deriving Repr, DecidableEq

/-- An observable trace of one sendWithRetry call: its outcome, how many send
attempts ran, and the backoff waits slept through. -/
structure RetryTrace where
  result : RetryResult
  attemptsMade : Nat
  waits : List Nat
deriving Repr, DecidableEq

/-- The retry loop of Sender.sendWithRetry. `f k` is what the k-th send
returns, `c k` tells whether the context is done during the backoff that
precedes attempt k, `fuel` is the number of loop iterations left
(maxRetries + 1 - attempt at entry), and `waits`/`lastErr` accumulate. -/
def sendWithRetryGo (base : Nat) (f : Nat → Except SendError Unit) (c : Nat → Bool) :
    Nat → Nat → List Nat → Option SendError → RetryTrace
  | 0, attempt, waits, lastErr => { result := .exhausted lastErr, attemptsMade := attempt,
                                    waits := waits }
  | fuel + 1, attempt, waits, _ =>
    if 0 < attempt ∧ c attempt = true then
      { result := .ctxErr, attemptsMade := attempt, waits := waits }
    else
      let waits' := if 0 < attempt then waits ++ [base * 2 ^ (attempt - 1)] else waits
      match f attempt with
      | Except.ok _ => { result := .ok, attemptsMade := attempt + 1, waits := waits' }
      | Except.error e =>
        if isRetryable e then sendWithRetryGo base f c fuel (attempt + 1) waits' (some e)
        else { result := .permanent e, attemptsMade := attempt + 1, waits := waits' }

/-- Sender.sendWithRetry: attempts 0..maxRetries, exponential backoff before
each retry, context cancellation aborts during a backoff, non-retryable
errors return immediately, exhaustion wraps the last error. -/
def sendWithRetry (maxRetries base : Nat) (f : Nat → Except SendError Unit)
    (c : Nat → Bool) : RetryTrace :=
  sendWithRetryGo base f c (maxRetries + 1) 0 [] none

/-- NewSender maxRetries. -/
def defaultMaxRetries : Nat := 3

/-- NewSender retryBackoff (2s), in nanoseconds. -/
def defaultRetryBackoff : Nat := 2000000000

end Agent

/-! Concrete sample data used by witnesses. -/

/-- A metrics snapshot with every gauge at zero. -/
def zeroSystemMetrics : Metrics.SystemMetrics :=
  { agentName := "", cpu := { usagePercent := 0 }, memory := { usedPercent := 0 },
    disk := [], containers := [] }

/-- A sample alert owned by agent "a". -/
def demoAlert : Server.Alert :=
  { id := "al1", agentName := "a", alertType := "system_cpu_high", severity := "warning",
    triggeredAt := 1, resolvedAt := none, status := "active", notifiedAt := none }

/-- A stored agent "a" that already carries one active alert. -/
def demoExisting : Server.ServerState :=
  { agentName := "a", ec2InstanceID := "", lastSeen := 1, status := "online",
    systemMetrics := zeroSystemMetrics, containers := [], activeAlerts := [demoAlert] }

/-- A store holding agent "a". -/
def demoStore : Server.StateStore :=
  { agents := [("a", demoExisting)], alerts := [] }

/-- A fresh metrics push for agent "a" carrying no alerts. -/
def demoPush : Server.ServerState :=
  { agentName := "a", ec2InstanceID := "", lastSeen := 0, status := "",
    systemMetrics := zeroSystemMetrics, containers := [], activeAlerts := [] }

/-- A running container as stored for agent "b". -/
def demoCont : Server.ContainerState :=
  { id := "c1", name := "web", image := "nginx", state := "running", previousState := "",
    lastStateChange := 1, restartCount := 0, alertState := "", health := "healthy",
    cpuPercent := 0, memoryPercent := 0, memoryUsage := 0, memoryLimit := 0 }

/-- The same container as reported by the next push, now exited. -/
def demoContExited : Server.ContainerState :=
  { demoCont with state := "exited" }

/-- A stored agent "b" holding the running container. -/
def demoExistingB : Server.ServerState :=
  { agentName := "b", ec2InstanceID := "", lastSeen := 1, status := "online",
    systemMetrics := zeroSystemMetrics, containers := [demoCont], activeAlerts := [] }

/-- A store holding agent "b". -/
def demoStoreB : Server.StateStore :=
  { agents := [("b", demoExistingB)], alerts := [] }

/-- The second push for agent "b", reporting the container exited. -/
def demoPushB : Server.ServerState :=
  { agentName := "b", ec2InstanceID := "", lastSeen := 0, status := "",
    systemMetrics := zeroSystemMetrics, containers := [demoContExited], activeAlerts := [] }

/-! Claim theorems. -/

/-- C5: for an agent already present in the store, UpdateAgent with any
(possibly empty) ActiveAlerts list in the incoming snapshot leaves the stored
ActiveAlerts exactly as they were before the call. -/
theorem C5_update_agent_preserves_active_alerts
    (s : Server.StateStore) (now : Nat) (st : Server.ServerState)
    (existing : Server.ServerState)
    (hlook : lookupA s.agents st.agentName = some existing) :
    ∃ st', lookupA (Server.UpdateAgent s now st).agents st.agentName = some st' ∧
      st'.activeAlerts = existing.activeAlerts := by
  unfold Server.UpdateAgent
  simp only [hlook]
  exact ⟨_, lookupA_insertA_self .., rfl⟩

/-- Witness for C5 at a concrete store: the push carries no alerts, the
stored alert list survives. -/
theorem C5_witness :
    ∃ st', lookupA (Server.UpdateAgent demoStore 5 demoPush).agents
        demoPush.agentName = some st' ∧
      st'.activeAlerts = demoExisting.activeAlerts :=
  C5_update_agent_preserves_active_alerts demoStore 5 demoPush demoExisting (by decide)

/-- C2: two consecutive UpdateAgent calls for the same agent; for a container
id X present in both the stored list and the new list, a changed state sets
previous-state to the prior state and stamps a strictly newer change time
(the stored change time lies strictly before the second call), while an
unchanged state carries both fields forward untouched. -/
theorem C2_merge_transition_rule
    (s : Server.StateStore) (t2 : Nat) (st2 : Server.ServerState) (X : String)
    (existing : Server.ServerState)
    (hlook : lookupA s.agents st2.agentName = some existing)
    (cprev : Server.ContainerState)
    (hprev : Server.prevLookup existing.containers X = some cprev)
    (htime : cprev.lastStateChange < t2) :
    (∃ st', lookupA (Server.UpdateAgent s t2 st2).agents st2.agentName = some st' ∧
       st'.containers = st2.containers.map (Server.mergeOne t2 existing.containers)) ∧
    ∀ c2 ∈ st2.containers, c2.id = X →
      (c2.state ≠ cprev.state →
        (Server.mergeOne t2 existing.containers c2).previousState = cprev.state ∧
        (Server.mergeOne t2 existing.containers c2).lastStateChange = t2 ∧
        cprev.lastStateChange <
          (Server.mergeOne t2 existing.containers c2).lastStateChange) ∧
      (c2.state = cprev.state →
        (Server.mergeOne t2 existing.containers c2).previousState = cprev.previousState ∧
        (Server.mergeOne t2 existing.containers c2).lastStateChange =
          cprev.lastStateChange) := by
  constructor
  · unfold Server.UpdateAgent
    simp only [hlook]
    exact ⟨_, lookupA_insertA_self .., rfl⟩
  · intro c2 _ hid
    unfold Server.mergeOne
    rw [hid, hprev]
    dsimp only
    constructor
    · intro hne
      rw [if_pos hne]
      exact ⟨rfl, rfl, htime⟩
    · intro heq
      rw [if_neg (by simp [heq])]
      exact ⟨rfl, rfl⟩

/-- Witness for C2 at a concrete two-push scenario: container c1 goes from
running to exited, previous-state becomes "running" and the change time is
the second call's clock. -/
theorem C2_witness :
    (Server.mergeOne 5 demoExistingB.containers demoContExited).previousState
        = "running" ∧
    (Server.mergeOne 5 demoExistingB.containers demoContExited).lastStateChange = 5 := by
  have h := C2_merge_transition_rule demoStoreB 5 demoPushB "c1" demoExistingB (by decide)
    demoCont (by decide) (by decide)
  have h2 := (h.2 demoContExited (by decide) (by decide)).1 (by decide)
  exact ⟨h2.1, h2.2.1⟩

/-- The engine configuration used by the concrete deduplication scenario:
deduplication on, five-minute window. -/
def dedupWindowConfig : Alerting.Config :=
  { enabled := true, checkInterval := 0, heartbeatTimeout := 0,
    deduplicationEnabled := true, deduplicationWindow := 5 * Server.timeMinute,
    systemCPUThreshold := 0, systemMemoryThreshold := 0, systemDiskThreshold := 0 }

/-- C3: shouldSendAlert returns true iff deduplication is disabled, the key
was never sent, or the elapsed time strictly exceeds the window; with a
five-minute window a key sent at T is suppressed at T+1m and eligible at
T+6m. -/
theorem C3_should_send_alert_iff
    (cfg : Alerting.Config) (recent : List (String × Nat)) (now : Nat) (key : String) :
    (Alerting.shouldSendAlert cfg recent now key = true ↔
      cfg.deduplicationEnabled = false ∨ lookupA recent key = none ∨
      ∃ t, lookupA recent key = some t ∧
        (now : Int) - (t : Int) > cfg.deduplicationWindow) ∧
    ∀ (key' : String) (T : Nat),
      Alerting.shouldSendAlert dedupWindowConfig
        (Alerting.markAlertSent [] T key') (T + 60 * 1000000000) key' = false ∧
      Alerting.shouldSendAlert dedupWindowConfig
        (Alerting.markAlertSent [] T key') (T + 360 * 1000000000) key' = true := by
  constructor
  · unfold Alerting.shouldSendAlert
    cases hd : cfg.deduplicationEnabled with
    | false => simp [hd]
    | true =>
      simp only [hd, Bool.not_true, Bool.false_eq_true, if_neg, if_false]
      cases hl : lookupA recent key with
      | none => simp
      | some t =>
        simp only [Option.some.injEq, decide_eq_true_eq]
        constructor
        · intro h
          exact Or.inr (Or.inr ⟨t, rfl, h⟩)
        · rintro (h | h | ⟨t', ht', h⟩)
          · simp at h
          · simp at h
          · cases ht'
            exact h
  · intro key' T
    have hm : Alerting.markAlertSent [] T key' = [(key', T)] := by
      simp [Alerting.markAlertSent, insertA]
    have hl : lookupA [(key', T)] key' = some T := by
      simp [lookupA]
    constructor
    · unfold Alerting.shouldSendAlert
      rw [hm, hl]
      simp only [dedupWindowConfig, Server.timeMinute, Server.timeSecond]
      norm_num
    · unfold Alerting.shouldSendAlert
      rw [hm, hl]
      simp only [dedupWindowConfig, Server.timeMinute, Server.timeSecond]
      norm_num

/-- The offline sweep, in closed form: entries are flipped pointwise, and the
returned list is exactly the flipped stale-online values. -/
theorem offlineSweep_spec (now : Nat) (timeout : Int) :
    ∀ l : List (String × Server.ServerState),
      Server.offlineSweep now timeout l =
        (l.map (fun p => if Server.staleOnline now timeout p.2
            then (p.1, { p.2 with status := "offline" }) else p),
         ((l.map Prod.snd).filter (Server.staleOnline now timeout)).map
           (fun st => { st with status := "offline" }))
  | [] => rfl
  | (k, st) :: rest => by
    have ih := offlineSweep_spec now timeout rest
    by_cases h : Server.staleOnline now timeout st = true
    · simp [Server.offlineSweep, ih, h]
    · simp [Server.offlineSweep, ih, h]

/-- C6: CheckOfflineAgents returns exactly the stored agents that were online
and last seen longer than the timeout ago, flipped to offline (it also flips
them in place); and with no intervening update, a second call never re-returns
an agent returned by the first (under distinct stored agent names). -/
theorem C6_check_offline_agents
    (s : Server.StateStore) (now : Nat) (timeout : Int) :
    ((Server.CheckOfflineAgents s now timeout).2 =
       ((s.agents.map Prod.snd).filter (Server.staleOnline now timeout)).map
         (fun st => { st with status := "offline" })) ∧
    ((Server.CheckOfflineAgents s now timeout).1.agents =
       s.agents.map (fun p => if Server.staleOnline now timeout p.2
         then (p.1, { p.2 with status := "offline" }) else p)) ∧
    ((s.agents.map (fun p => p.2.agentName)).Nodup →
      ∀ (now' : Nat) (timeout' : Int),
      ∀ a ∈ (Server.CheckOfflineAgents s now timeout).2,
      ∀ b ∈ (Server.CheckOfflineAgents
               (Server.CheckOfflineAgents s now timeout).1 now' timeout').2,
        b.agentName ≠ a.agentName) := by
  have spec : ∀ (s' : Server.StateStore) (n : Nat) (t : Int),
      (Server.CheckOfflineAgents s' n t).2 =
        ((s'.agents.map Prod.snd).filter (Server.staleOnline n t)).map
          (fun st => { st with status := "offline" }) ∧
      (Server.CheckOfflineAgents s' n t).1.agents =
        s'.agents.map (fun p => if Server.staleOnline n t p.2
          then (p.1, { p.2 with status := "offline" }) else p) := by
    intro s' n t
    constructor
    · simp [Server.CheckOfflineAgents, offlineSweep_spec n t s'.agents]
    · simp [Server.CheckOfflineAgents, offlineSweep_spec n t s'.agents]
  refine ⟨(spec s now timeout).1, (spec s now timeout).2, ?_⟩
  intro hnd now' timeout' a ha b hb
  rw [(spec s now timeout).1] at ha
  rcases List.mem_map.mp ha with ⟨st1, hst1, rfl⟩
  rcases List.mem_filter.mp hst1 with ⟨hst1mem, hst1stale⟩
  rcases List.mem_map.mp hst1mem with ⟨p1, hp1, rfl⟩
  rw [(spec (Server.CheckOfflineAgents s now timeout).1 now' timeout').1] at hb
  rcases List.mem_map.mp hb with ⟨st2, hst2, rfl⟩
  rcases List.mem_filter.mp hst2 with ⟨hst2mem, hst2stale⟩
  rw [(spec s now timeout).2, List.map_map] at hst2mem
  rcases List.mem_map.mp hst2mem with ⟨p2, hp2, hst2eq⟩
  by_cases hcase : Server.staleOnline now timeout p2.2 = true
  · have hst2flip : st2 = { p2.2 with status := "offline" } := by
      simp only [Function.comp, hcase, if_pos] at hst2eq
      exact hst2eq.symm
    subst hst2flip
    have hfalse : (("offline" : String) == "online") = false := by decide
    simp [Server.staleOnline, hfalse] at hst2stale
  · have hst2p : st2 = p2.2 := by
      simp only [Function.comp, hcase, Bool.false_eq_true, if_neg] at hst2eq
      exact hst2eq.symm
    subst hst2p
    intro hname
    have hfeq : (fun p : String × Server.ServerState => p.2.agentName) p2 =
        (fun p : String × Server.ServerState => p.2.agentName) p1 := hname
    have hp12 := List.inj_on_of_nodup_map hnd hp2 hp1 hfeq
    subst hp12
    exact hcase hst1stale

/-- Witness for C6 at a concrete store: one stale online agent is returned by
the first call and is absent from a later call's result. -/
theorem C6_witness :
    (Server.CheckOfflineAgents demoStore 4 1).2 =
      [{ demoExisting with status := "offline" }] ∧
    ∀ b ∈ (Server.CheckOfflineAgents
             (Server.CheckOfflineAgents demoStore 4 1).1 9 1).2,
      b.agentName ≠ "a" := by
  have h := C6_check_offline_agents demoStore 4 1
  constructor
  · rw [h.1]
    decide
  · intro b hb
    exact h.2.2 (by decide) 9 1 { demoExisting with status := "offline" } (by decide) b hb

/-- Anything in the added list after a sendAlert was either there before or
is the alert just sent (with its type unchanged by the NotifiedAt stamp). -/
theorem sendAlert_mem_added (notify : Alerting.Alert → Bool) (now : Nat)
    (es : Alerting.EngineState) (alert : Alerting.Alert) (key : String)
    (a : Alerting.Alert) (ha : a ∈ (Alerting.sendAlert notify now es alert key).added) :
    a ∈ es.added ∨ a.alertType = alert.alertType := by
  by_cases hn : notify alert = true
  · simp only [Alerting.sendAlert, hn, if_pos] at ha
    rcases List.mem_append.mp ha with h | h
    · exact Or.inl h
    · simp only [List.mem_singleton] at h
      subst h
      exact Or.inr rfl
  · simp only [Alerting.sendAlert, hn, Bool.false_eq_true, if_neg] at ha
    rcases List.mem_append.mp ha with h | h
    · exact Or.inl h
    · simp only [List.mem_singleton] at h
      subst h
      exact Or.inr rfl

/-- Membership through one guarded send stage of the engine checkers. -/
theorem mem_added_if_send (notify : Alerting.Alert → Bool) (now : Nat)
    (es : Alerting.EngineState) (alert : Alerting.Alert) (key : String)
    (cond gate : Prop) [Decidable cond] [Decidable gate] (a : Alerting.Alert)
    (ha : a ∈ (if cond then
        (if gate then Alerting.sendAlert notify now { es with uuids := es.uuids + 1 }
          alert key else es)
      else es).added) :
    a ∈ es.added ∨ a.alertType = alert.alertType := by
  split at ha
  · split at ha
    · rcases sendAlert_mem_added notify now _ alert key a ha with h | h
      · exact Or.inl h
      · exact Or.inr h
    · exact Or.inl ha
  · exact Or.inl ha

/-- C1: the engine persists every alert it raises through AddAlert whether or
not notification succeeds; the dedup key is marked and NotifiedAt stamped
exactly on notifier success; on failure the alert stays recorded un-notified,
the dedup map is untouched, and an eligible key stays eligible at any later
cycle; the offline path follows the same discipline. -/
theorem C1_persist_always_mark_only_on_success
    (cfg : Alerting.Config) (notify : Alerting.Alert → Bool) (uuid : Nat → String)
    (now : Nat) (es : Alerting.EngineState) (alert : Alerting.Alert) (key : String)
    (agent : Alerting.ServerState) :
    ((Alerting.sendAlert notify now es alert key).added =
      es.added ++ [if notify alert then { alert with notifiedAt := some now }
                   else alert]) ∧
    (notify alert = true →
      (Alerting.sendAlert notify now es alert key).recentAlerts =
        Alerting.markAlertSent es.recentAlerts now key ∧
      lookupA (Alerting.sendAlert notify now es alert key).recentAlerts key = some now) ∧
    (notify alert = false →
      (Alerting.sendAlert notify now es alert key).added = es.added ++ [alert] ∧
      (Alerting.sendAlert notify now es alert key).recentAlerts = es.recentAlerts) ∧
    (∀ (r : List (String × Nat)) (t t' : Nat), t ≤ t' →
      Alerting.shouldSendAlert cfg r t key = true →
      Alerting.shouldSendAlert cfg r t' key = true) ∧
    ((Alerting.mkAlert (uuid es.uuids) agent.agentName "agent_offline" "critical"
        now).notifiedAt = none) ∧
    (Alerting.shouldSendAlert cfg es.recentAlerts now
        ("agent_offline:" ++ agent.agentName) = true →
      ((Alerting.offlineStep cfg notify uuid now es agent).added =
        es.added ++ [if notify (Alerting.mkAlert (uuid es.uuids) agent.agentName
              "agent_offline" "critical" now)
          then { Alerting.mkAlert (uuid es.uuids) agent.agentName "agent_offline"
                   "critical" now with notifiedAt := some now }
          else Alerting.mkAlert (uuid es.uuids) agent.agentName "agent_offline"
                 "critical" now]) ∧
      (notify (Alerting.mkAlert (uuid es.uuids) agent.agentName "agent_offline"
          "critical" now) = true →
        (Alerting.offlineStep cfg notify uuid now es agent).recentAlerts =
          Alerting.markAlertSent es.recentAlerts now
            ("agent_offline:" ++ agent.agentName)) ∧
      (notify (Alerting.mkAlert (uuid es.uuids) agent.agentName "agent_offline"
          "critical" now) = false →
        (Alerting.offlineStep cfg notify uuid now es agent).recentAlerts =
          es.recentAlerts)) := by
  refine ⟨?_, ?_, ?_, ?_, rfl, ?_⟩
  · by_cases hn : notify alert = true
    · simp [Alerting.sendAlert, hn]
    · simp [Alerting.sendAlert, hn]
  · intro hn
    refine ⟨by simp [Alerting.sendAlert, hn], ?_⟩
    simp only [Alerting.sendAlert, hn, if_pos]
    exact lookupA_insertA_self ..
  · intro hn
    constructor
    · simp [Alerting.sendAlert, hn]
    · simp [Alerting.sendAlert, hn]
  · intro r t t' htt h
    unfold Alerting.shouldSendAlert at h ⊢
    by_cases hd : cfg.deduplicationEnabled
    · simp only [hd, Bool.not_true, Bool.false_eq_true, if_neg, if_false] at h ⊢
      cases hl : lookupA r key with
      | none => simp [hl]
      | some t0 =>
        rw [hl] at h
        dsimp only at h ⊢
        have h' : (t : Int) - (t0 : Int) > cfg.deduplicationWindow :=
          of_decide_eq_true h
        simp only [decide_eq_true_eq]
        omega
    · simp only [Bool.not_eq_true] at hd
      simp [hd]
  · intro hgate
    unfold Alerting.offlineStep
    rw [if_pos hgate]
    by_cases hn : notify (Alerting.mkAlert (uuid es.uuids) agent.agentName
        "agent_offline" "critical" now) = true
    · refine ⟨by simp [hn], fun _ => by simp [hn], fun hfalse => ?_⟩
      rw [hn] at hfalse
      exact absurd hfalse (by simp)
    · simp only [Bool.not_eq_true] at hn
      refine ⟨by simp [hn], fun htrue => ?_, fun _ => by simp [hn]⟩
      rw [hn] at htrue
      exact absurd htrue (by simp)

/-- A concrete engine-facing agent used by witnesses. -/
def wAgent : Alerting.ServerState :=
  { agentName := "a", status := "offline", lastSeen := 0,
    systemMetrics := { cpu := { usagePercent := 0 }, memory := { usedPercent := 0 },
                       disk := [] },
    containers := [], activeAlerts := [] }

/-- A concrete engine alert used by witnesses. -/
def wAlert : Alerting.Alert :=
  Alerting.mkAlert "id0" "a" "agent_offline" "critical" 3

/-- Witness for C1 at concrete inputs: a succeeding notifier marks the key, a
failing notifier leaves the engine state untouched except for the persisted
alert. -/
theorem C1_witness :
    (lookupA (Alerting.sendAlert (fun _ => true) 3
        { recentAlerts := [], added := [], uuids := 0 } wAlert "k").recentAlerts "k"
      = some 3) ∧
    ((Alerting.sendAlert (fun _ => false) 3
        { recentAlerts := [], added := [], uuids := 0 } wAlert "k").added
      = [] ++ [wAlert]) ∧
    ((Alerting.sendAlert (fun _ => false) 3
        { recentAlerts := [], added := [], uuids := 0 } wAlert "k").recentAlerts = []) ∧
    ((Alerting.offlineStep dedupWindowConfig (fun _ => false) (fun n => toString n) 3
        { recentAlerts := [], added := [], uuids := 0 } wAgent).recentAlerts = []) := by
  have hT := C1_persist_always_mark_only_on_success dedupWindowConfig (fun _ => true)
    (fun n => toString n) 3 { recentAlerts := [], added := [], uuids := 0 } wAlert "k" wAgent
  have hF := C1_persist_always_mark_only_on_success dedupWindowConfig (fun _ => false)
    (fun n => toString n) 3 { recentAlerts := [], added := [], uuids := 0 } wAlert "k" wAgent
  refine ⟨(hT.2.1 rfl).2, (hF.2.2.1 rfl).1, (hF.2.2.1 rfl).2, ?_⟩
  exact (hF.2.2.2.2.2 (by decide)).2.2 rfl

/-- C10: every ingested container whose memory limit is zero gets memory
percentage zero from the conversion (the division is guarded). -/
theorem C10_memory_percent_guarded
    (containers : List Metrics.ContainerMetrics) (c : Server.ContainerState)
    (hc : c ∈ Api.convertContainers containers) (hlim : c.memoryLimit = 0) :
    c.memoryPercent = 0 := by
  rcases List.mem_map.mp hc with ⟨cm, _, rfl⟩
  have hl : cm.memoryLimit = 0 := hlim
  simp [Api.convertOneContainer, Api.calculateMemoryPercent, hl]

/-- A reported container with no memory limit. -/
def limitZeroContainer : Metrics.ContainerMetrics :=
  { id := "c9", name := "n", image := "i", state := "running", health := "none",
    restartCount := 0, cpuPercent := 0, memoryUsage := 12345, memoryLimit := 0 }

/-- Witness for C10 at a concrete container with limit zero. -/
theorem C10_witness :
    (Api.convertOneContainer limitZeroContainer).memoryPercent = 0 :=
  C10_memory_percent_guarded [limitZeroContainer]
    (Api.convertOneContainer limitZeroContainer)
    (List.mem_map_of_mem _ (List.mem_singleton_self _)) rfl

/-- C9: a container id with no stored predecessor is merged with an empty
previous-state and the merge clock as change time; consequently the engine's
per-container check cannot raise a container_stopped alert for it (that alert
needs previous state "running"), whatever its first reported state. -/
theorem C9_first_observation_never_container_stopped
    (cm : Metrics.ContainerMetrics) (previous : List Server.ContainerState)
    (now now' : Nat) (cfg : Alerting.Config) (notify : Alerting.Alert → Bool)
    (uuid : Nat → String) (es : Alerting.EngineState) (agent : Alerting.ServerState)
    (hnew : Server.prevLookup previous (Api.convertOneContainer cm).id = none) :
    (Server.mergeOne now previous (Api.convertOneContainer cm)).previousState = "" ∧
    (Server.mergeOne now previous (Api.convertOneContainer cm)).lastStateChange = now ∧
    ∀ a ∈ (Alerting.checkContainerStep cfg notify uuid now' agent es
        (Server.convertContainerState
          (Server.mergeOne now previous (Api.convertOneContainer cm)))).added,
      a.alertType = "container_stopped" → a ∈ es.added := by
  have hm : Server.mergeOne now previous (Api.convertOneContainer cm) =
      { Api.convertOneContainer cm with lastStateChange := now } := by
    unfold Server.mergeOne
    rw [hnew]
  refine ⟨by rw [hm]; rfl, by rw [hm], ?_⟩
  intro a ha htype
  rw [hm] at ha
  have hprevempty : (Server.convertContainerState
      { Api.convertOneContainer cm with lastStateChange := now }).previousState = "" := rfl
  simp only [Alerting.checkContainerStep] at ha
  rw [hprevempty] at ha
  rw [show (("" : String) == "running") = false from by decide, Bool.false_and] at ha
  simp only [Bool.false_eq_true, if_false] at ha
  rcases mem_added_if_send notify now' _ _ _ _ _ a ha with ha3 | hty
  · rcases mem_added_if_send notify now' _ _ _ _ _ a ha3 with ha2 | hty
    · rcases mem_added_if_send notify now' _ _ _ _ _ a ha2 with ha1 | hty
      · exact ha1
      · rw [htype] at hty
        exact absurd
          (show ("container_stopped" : String) = "container_unhealthy" from hty)
          (by decide)
    · rw [htype] at hty
      exact absurd
        (show ("container_stopped" : String) = "container_cpu_high" from hty)
        (by decide)
  · rw [htype] at hty
    exact absurd
      (show ("container_stopped" : String) = "container_memory_high" from hty)
      (by decide)

theorem mem_added_checkSystemCPU (cfg : Alerting.Config) (notify : Alerting.Alert → Bool)
    (uuid : Nat → String) (now : Nat) (es : Alerting.EngineState)
    (agent : Alerting.ServerState) (a : Alerting.Alert)
    (ha : a ∈ (Alerting.checkSystemCPU cfg notify uuid now es agent).added) :
    a ∈ es.added ∨ (a.alertType = "system_cpu_high" ∧ 0 < cfg.systemCPUThreshold) := by
  unfold Alerting.checkSystemCPU at ha
  split at ha
  · rename_i hcond
    dsimp only at ha
    split at ha
    · rcases sendAlert_mem_added _ _ _ _ _ a ha with h | h
      · exact Or.inl h
      · exact Or.inr ⟨h, hcond.1⟩
    · exact Or.inl ha
  · exact Or.inl ha

theorem mem_added_checkSystemMemory (cfg : Alerting.Config)
    (notify : Alerting.Alert → Bool) (uuid : Nat → String) (now : Nat)
    (es : Alerting.EngineState) (agent : Alerting.ServerState) (a : Alerting.Alert)
    (ha : a ∈ (Alerting.checkSystemMemory cfg notify uuid now es agent).added) :
    a ∈ es.added ∨
      (a.alertType = "system_memory_high" ∧ 0 < cfg.systemMemoryThreshold) := by
  unfold Alerting.checkSystemMemory at ha
  split at ha
  · rename_i hcond
    dsimp only at ha
    split at ha
    · rcases sendAlert_mem_added _ _ _ _ _ a ha with h | h
      · exact Or.inl h
      · exact Or.inr ⟨h, hcond.1⟩
    · exact Or.inl ha
  · exact Or.inl ha

theorem mem_added_checkSystemDiskOne (cfg : Alerting.Config)
    (notify : Alerting.Alert → Bool) (uuid : Nat → String) (now : Nat)
    (agent : Alerting.ServerState) (es : Alerting.EngineState) (d : Alerting.DiskMetrics)
    (a : Alerting.Alert)
    (ha : a ∈ (Alerting.checkSystemDiskOne cfg notify uuid now agent es d).added) :
    a ∈ es.added ∨ (a.alertType = "system_disk_high" ∧ 0 < cfg.systemDiskThreshold) := by
  unfold Alerting.checkSystemDiskOne at ha
  split at ha
  · rename_i hcond
    dsimp only at ha
    split at ha
    · rcases sendAlert_mem_added _ _ _ _ _ a ha with h | h
      · exact Or.inl h
      · exact Or.inr ⟨h, hcond.1⟩
    · exact Or.inl ha
  · exact Or.inl ha

theorem mem_added_diskFold (cfg : Alerting.Config) (notify : Alerting.Alert → Bool)
    (uuid : Nat → String) (now : Nat) (agent : Alerting.ServerState) (a : Alerting.Alert) :
    ∀ (disks : List Alerting.DiskMetrics) (es : Alerting.EngineState),
      a ∈ (disks.foldl (Alerting.checkSystemDiskOne cfg notify uuid now agent) es).added →
      a ∈ es.added ∨ (a.alertType = "system_disk_high" ∧ 0 < cfg.systemDiskThreshold)
  | [], _, ha => Or.inl ha
  | d :: rest, es, ha => by
    rcases mem_added_diskFold cfg notify uuid now agent a rest
        (Alerting.checkSystemDiskOne cfg notify uuid now agent es d) ha with h | h
    · rcases mem_added_checkSystemDiskOne cfg notify uuid now agent es d a h with h0 | h0
      · exact Or.inl h0
      · exact Or.inr h0
    · exact Or.inr h

theorem mem_added_checkSystemAlerts (cfg : Alerting.Config)
    (notify : Alerting.Alert → Bool) (uuid : Nat → String) (now : Nat)
    (es : Alerting.EngineState) (agent : Alerting.ServerState) (a : Alerting.Alert)
    (ha : a ∈ (Alerting.checkSystemAlerts cfg notify uuid now es agent).added) :
    a ∈ es.added ∨
    (a.alertType = "system_cpu_high" ∧ 0 < cfg.systemCPUThreshold) ∨
    (a.alertType = "system_memory_high" ∧ 0 < cfg.systemMemoryThreshold) ∨
    (a.alertType = "system_disk_high" ∧ 0 < cfg.systemDiskThreshold) := by
  unfold Alerting.checkSystemAlerts at ha
  rcases mem_added_diskFold cfg notify uuid now agent a _ _ ha with h2 | h
  · rcases mem_added_checkSystemMemory cfg notify uuid now _ agent a h2 with h1 | h
    · rcases mem_added_checkSystemCPU cfg notify uuid now es agent a h1 with h0 | h
      · exact Or.inl h0
      · exact Or.inr (Or.inl h)
    · exact Or.inr (Or.inr (Or.inl h))
  · exact Or.inr (Or.inr (Or.inr h))

theorem mem_added_offlineStep (cfg : Alerting.Config) (notify : Alerting.Alert → Bool)
    (uuid : Nat → String) (now : Nat) (es : Alerting.EngineState)
    (agent : Alerting.ServerState) (a : Alerting.Alert)
    (ha : a ∈ (Alerting.offlineStep cfg notify uuid now es agent).added) :
    a ∈ es.added ∨ a.alertType = "agent_offline" := by
  unfold Alerting.offlineStep at ha
  dsimp only at ha
  split at ha
  · split at ha
    · rcases List.mem_append.mp ha with h | h
      · exact Or.inl h
      · simp only [List.mem_singleton] at h
        subst h
        exact Or.inr rfl
    · rcases List.mem_append.mp ha with h | h
      · exact Or.inl h
      · simp only [List.mem_singleton] at h
        subst h
        exact Or.inr rfl
  · exact Or.inl ha

theorem mem_added_offlineFold (cfg : Alerting.Config) (notify : Alerting.Alert → Bool)
    (uuid : Nat → String) (now : Nat) (a : Alerting.Alert) :
    ∀ (offline : List Alerting.ServerState) (es : Alerting.EngineState),
      a ∈ (Alerting.checkOfflineAgents cfg notify uuid now offline es).added →
      a ∈ es.added ∨ a.alertType = "agent_offline"
  | [], _, ha => Or.inl ha
  | ag :: rest, es, ha => by
    rcases mem_added_offlineFold cfg notify uuid now a rest
        (Alerting.offlineStep cfg notify uuid now es ag) ha with h | h
    · rcases mem_added_offlineStep cfg notify uuid now es ag a h with h0 | h0
      · exact Or.inl h0
      · exact Or.inr h0
    · exact Or.inr h

theorem mem_added_checkContainerStep (cfg : Alerting.Config)
    (notify : Alerting.Alert → Bool) (uuid : Nat → String) (now : Nat)
    (agent : Alerting.ServerState) (es : Alerting.EngineState)
    (c : Alerting.ContainerState) (a : Alerting.Alert)
    (ha : a ∈ (Alerting.checkContainerStep cfg notify uuid now agent es c).added) :
    a ∈ es.added ∨ a.alertType = "container_stopped" ∨
      a.alertType = "container_unhealthy" ∨ a.alertType = "container_cpu_high" ∨
      a.alertType = "container_memory_high" := by
  simp only [Alerting.checkContainerStep] at ha
  rcases mem_added_if_send notify now _ _ _ _ _ a ha with h3 | hty
  · rcases mem_added_if_send notify now _ _ _ _ _ a h3 with h2 | hty
    · rcases mem_added_if_send notify now _ _ _ _ _ a h2 with h1 | hty
      · rcases mem_added_if_send notify now _ _ _ _ _ a h1 with h0 | hty
        · exact Or.inl h0
        · tauto
      · tauto
    · tauto
  · tauto

theorem mem_added_containerFold (cfg : Alerting.Config) (notify : Alerting.Alert → Bool)
    (uuid : Nat → String) (now : Nat) (agent : Alerting.ServerState) (a : Alerting.Alert) :
    ∀ (cs : List Alerting.ContainerState) (es : Alerting.EngineState),
      a ∈ (cs.foldl (Alerting.checkContainerStep cfg notify uuid now agent) es).added →
      a ∈ es.added ∨ a.alertType = "container_stopped" ∨
        a.alertType = "container_unhealthy" ∨ a.alertType = "container_cpu_high" ∨
        a.alertType = "container_memory_high"
  | [], _, ha => Or.inl ha
  | c :: rest, es, ha => by
    rcases mem_added_containerFold cfg notify uuid now agent a rest
        (Alerting.checkContainerStep cfg notify uuid now agent es c) ha with h | h
    · rcases mem_added_checkContainerStep cfg notify uuid now agent es c a h with h0 | h0
      · exact Or.inl h0
      · exact Or.inr h0
    · exact Or.inr h

theorem mem_added_agentsFold (cfg : Alerting.Config) (notify : Alerting.Alert → Bool)
    (uuid : Nat → String) (now : Nat) (a : Alerting.Alert) :
    ∀ (agents : List Alerting.ServerState) (es : Alerting.EngineState),
      a ∈ (agents.foldl (fun es agent =>
          if agent.status == "online" then
            Alerting.checkContainerAlerts cfg notify uuid now
              (Alerting.checkSystemAlerts cfg notify uuid now es agent) agent
          else es) es).added →
      a ∈ es.added ∨
      (a.alertType = "system_cpu_high" ∧ 0 < cfg.systemCPUThreshold) ∨
      (a.alertType = "system_memory_high" ∧ 0 < cfg.systemMemoryThreshold) ∨
      (a.alertType = "system_disk_high" ∧ 0 < cfg.systemDiskThreshold) ∨
      a.alertType = "container_stopped" ∨ a.alertType = "container_unhealthy" ∨
      a.alertType = "container_cpu_high" ∨ a.alertType = "container_memory_high"
  | [], _, ha => Or.inl ha
  | ag :: rest, es, ha => by
    rcases mem_added_agentsFold cfg notify uuid now a rest _ ha with h | h
    · dsimp only at h
      split at h
      · unfold Alerting.checkContainerAlerts at h
        rcases mem_added_containerFold cfg notify uuid now ag a ag.containers _ h
            with h1 | h1
        · rcases mem_added_checkSystemAlerts cfg notify uuid now es ag a h1 with h0 | h0
          · exact Or.inl h0
          · tauto
        · tauto
      · exact Or.inl h
    · exact Or.inr h

/-- Every alert a whole evaluation cycle adds has the alert type of the branch
that raised it, and a system branch only fires when its threshold is
positive. -/
theorem mem_added_checkAlerts (cfg : Alerting.Config) (notify : Alerting.Alert → Bool)
    (uuid : Nat → String) (now : Nat) (view : Alerting.StoreView)
    (es : Alerting.EngineState) (a : Alerting.Alert)
    (ha : a ∈ (Alerting.checkAlerts cfg notify uuid now view es).added) :
    a ∈ es.added ∨ a.alertType = "agent_offline" ∨
    (a.alertType = "system_cpu_high" ∧ 0 < cfg.systemCPUThreshold) ∨
    (a.alertType = "system_memory_high" ∧ 0 < cfg.systemMemoryThreshold) ∨
    (a.alertType = "system_disk_high" ∧ 0 < cfg.systemDiskThreshold) ∨
    a.alertType = "container_stopped" ∨ a.alertType = "container_unhealthy" ∨
    a.alertType = "container_cpu_high" ∨ a.alertType = "container_memory_high" := by
  unfold Alerting.checkAlerts at ha
  rcases mem_added_agentsFold cfg notify uuid now a view.agents _ ha with h | h
  · rcases mem_added_offlineFold cfg notify uuid now a view.offline es h with h0 | h0
    · exact Or.inl h0
    · tauto
  · tauto

/-- The thresholds LoadConfig leaves behind: a zero threshold from the file is
replaced by the hard default. -/
theorem loadConfigDefaults_thresholds (cfg : Server.Config) :
    (Server.loadConfigDefaults cfg).alerting.systemCPUThreshold =
      (if cfg.alerting.systemCPUThreshold = 0 then 80
       else cfg.alerting.systemCPUThreshold) ∧
    (Server.loadConfigDefaults cfg).alerting.systemMemoryThreshold =
      (if cfg.alerting.systemMemoryThreshold = 0 then 85
       else cfg.alerting.systemMemoryThreshold) ∧
    (Server.loadConfigDefaults cfg).alerting.systemDiskThreshold =
      (if cfg.alerting.systemDiskThreshold = 0 then 90
       else cfg.alerting.systemDiskThreshold) := by
  unfold Server.loadConfigDefaults
  refine ⟨?_, ?_, ?_⟩ <;>
    simp only [apply_ite (fun c : Server.Config => c.server.port),
      apply_ite (fun c : Server.Config => c.alerting.checkInterval),
      apply_ite (fun c : Server.Config => c.alerting.heartbeatTimeout),
      apply_ite (fun c : Server.Config => c.alerting.deduplicationWindow),
      apply_ite (fun c : Server.Config => c.alerting.systemCPUThreshold),
      apply_ite (fun c : Server.Config => c.alerting.systemMemoryThreshold),
      apply_ite (fun c : Server.Config => c.alerting.systemDiskThreshold),
      ite_self]

/-- A server configuration file carrying an explicit zero memory threshold
(every other numeric field also left at its zero value). -/
def fileConfigZeroMem : Server.Config :=
  { server := { host := "", port := 0 },
    auth := { apiKeys := [{ key := "k", name := "ops", scopes := [] }] },
    alerting := { enabled := true, checkInterval := 0, heartbeatTimeout := 0,
                  deduplicationEnabled := false, deduplicationWindow := 0,
                  systemCPUThreshold := 0, systemMemoryThreshold := 0,
                  systemDiskThreshold := 0 },
    googleChat := { enabled := false, webhookURL := "", dashboardURL := "" },
    cors := { enabled := false, allowedOrigins := [], devMode := false } }

/-- An online agent reporting 99 percent memory use. -/
def memAgent99 : Alerting.ServerState :=
  { agentName := "a1", status := "online", lastSeen := 0,
    systemMetrics := { cpu := { usagePercent := 0 }, memory := { usedPercent := 99 },
                       disk := [] },
    containers := [], activeAlerts := [] }

/-- C7 counterexample: loading a configuration whose file says
system_memory_threshold 0 yields threshold 85, and a full evaluation cycle
over that loaded configuration raises exactly one system_memory_high alert
for an agent at 99 percent — not zero as the claim states. -/
theorem C7_counterexample_file_zero_threshold_still_alerts :
    (Server.loadConfigDefaults fileConfigZeroMem).alerting.systemMemoryThreshold = 85 ∧
    ((Alerting.checkAlerts
        (Server.toAlertingConfig (Server.loadConfigDefaults fileConfigZeroMem).alerting)
        (fun _ => true) (fun n => toString n) 0
        { offline := [], agents := [memAgent99] }
        { recentAlerts := [], added := [], uuids := 0 }).added.filter
      (fun a => a.alertType == "system_memory_high")).length = 1 := by
  constructor
  · decide
  · decide

/-- C7 (amended): a zero system-metric threshold in the engine configuration
disables that check entirely — a full evaluation cycle adds no alert of that
type; however LoadConfig replaces a zero threshold read from the file with
the hard default (85.0 for memory), so a configuration loaded from file
cannot reach the engine with a zero threshold, and the file-level scenario of
the claim raises an alert instead of zero. -/
theorem C7_zero_threshold_disables_at_engine
    (cfg : Alerting.Config) (notify : Alerting.Alert → Bool) (uuid : Nat → String)
    (now : Nat) (view : Alerting.StoreView) (es : Alerting.EngineState) :
    (cfg.systemMemoryThreshold = 0 →
      ∀ a ∈ (Alerting.checkAlerts cfg notify uuid now view es).added,
        a.alertType = "system_memory_high" → a ∈ es.added) ∧
    (cfg.systemCPUThreshold = 0 →
      ∀ a ∈ (Alerting.checkAlerts cfg notify uuid now view es).added,
        a.alertType = "system_cpu_high" → a ∈ es.added) ∧
    (cfg.systemDiskThreshold = 0 →
      ∀ a ∈ (Alerting.checkAlerts cfg notify uuid now view es).added,
        a.alertType = "system_disk_high" → a ∈ es.added) ∧
    (∀ scfg : Server.Config, scfg.alerting.systemMemoryThreshold = 0 →
      (Server.loadConfigDefaults scfg).alerting.systemMemoryThreshold = 85) := by
  refine ⟨?_, ?_, ?_, ?_⟩
  · intro h0 a ha hty
    rcases mem_added_checkAlerts cfg notify uuid now view es a ha with
      h | h | ⟨h1, _⟩ | ⟨_, h2⟩ | ⟨h1, _⟩ | h | h | h | h
    · exact h
    · rw [hty] at h
      exact absurd h (by decide)
    · rw [hty] at h1
      exact absurd h1 (by decide)
    · rw [h0] at h2
      exact absurd h2 (lt_irrefl 0)
    · rw [hty] at h1
      exact absurd h1 (by decide)
    · rw [hty] at h
      exact absurd h (by decide)
    · rw [hty] at h
      exact absurd h (by decide)
    · rw [hty] at h
      exact absurd h (by decide)
    · rw [hty] at h
      exact absurd h (by decide)
  · intro h0 a ha hty
    rcases mem_added_checkAlerts cfg notify uuid now view es a ha with
      h | h | ⟨_, h2⟩ | ⟨h1, _⟩ | ⟨h1, _⟩ | h | h | h | h
    · exact h
    · rw [hty] at h
      exact absurd h (by decide)
    · rw [h0] at h2
      exact absurd h2 (lt_irrefl 0)
    · rw [hty] at h1
      exact absurd h1 (by decide)
    · rw [hty] at h1
      exact absurd h1 (by decide)
    · rw [hty] at h
      exact absurd h (by decide)
    · rw [hty] at h
      exact absurd h (by decide)
    · rw [hty] at h
      exact absurd h (by decide)
    · rw [hty] at h
      exact absurd h (by decide)
  · intro h0 a ha hty
    rcases mem_added_checkAlerts cfg notify uuid now view es a ha with
      h | h | ⟨h1, _⟩ | ⟨h1', _⟩ | ⟨_, h2⟩ | h | h | h | h
    · exact h
    · rw [hty] at h
      exact absurd h (by decide)
    · rw [hty] at h1
      exact absurd h1 (by decide)
    · rw [hty] at h1'
      exact absurd h1' (by decide)
    · rw [h0] at h2
      exact absurd h2 (lt_irrefl 0)
    · rw [hty] at h
      exact absurd h (by decide)
    · rw [hty] at h
      exact absurd h (by decide)
    · rw [hty] at h
      exact absurd h (by decide)
    · rw [hty] at h
      exact absurd h (by decide)
  · intro scfg h0
    have h := (loadConfigDefaults_thresholds scfg).2.1
    rw [h, if_pos h0]

/-- Witness for C7 (amended) at a concrete zero-threshold engine
configuration and a 99 percent agent. -/
theorem C7_witness :
    (∀ a ∈ (Alerting.checkAlerts dedupWindowConfig (fun _ => true) (fun n => toString n)
        0 { offline := [], agents := [memAgent99] }
        { recentAlerts := [], added := [], uuids := 0 }).added,
      a.alertType = "system_memory_high" →
      a ∈ ({ recentAlerts := [], added := [], uuids := 0 } :
        Alerting.EngineState).added) ∧
    (Server.loadConfigDefaults fileConfigZeroMem).alerting.systemMemoryThreshold = 85 := by
  have h := C7_zero_threshold_disables_at_engine dedupWindowConfig (fun _ => true)
    (fun n => toString n) 0 { offline := [], agents := [memAgent99] }
    { recentAlerts := [], added := [], uuids := 0 }
  exact ⟨h.1 rfl, h.2.2.2 fileConfigZeroMem rfl⟩

/-- Witness for C9 at a concrete first-ever "exited" observation. -/
theorem C9_witness :
    (Server.mergeOne 5 []
      (Api.convertOneContainer
        { id := "c7", name := "n", image := "i", state := "exited", health := "none",
          restartCount := 0, cpuPercent := 0, memoryUsage := 0,
          memoryLimit := 0 })).previousState = "" ∧
    ∀ a ∈ (Alerting.checkContainerStep dedupWindowConfig (fun _ => true)
        (fun n => toString n) 9 wAgent { recentAlerts := [], added := [], uuids := 0 }
        (Server.convertContainerState (Server.mergeOne 5 []
          (Api.convertOneContainer
            { id := "c7", name := "n", image := "i", state := "exited", health := "none",
              restartCount := 0, cpuPercent := 0, memoryUsage := 0,
              memoryLimit := 0 })))).added,
      a.alertType = "container_stopped" →
      a ∈ ({ recentAlerts := [], added := [], uuids := 0 } :
        Alerting.EngineState).added := by
  have h := C9_first_observation_never_container_stopped
    { id := "c7", name := "n", image := "i", state := "exited", health := "none",
      restartCount := 0, cpuPercent := 0, memoryUsage := 0, memoryLimit := 0 }
    [] 5 9 dedupWindowConfig (fun _ => true) (fun n => toString n)
    { recentAlerts := [], added := [], uuids := 0 } wAgent (by decide)
  exact ⟨h.1, h.2.2⟩

/-- A gzip-encoded request whose wire size is well under the 10MB cap but
whose decompressed content is 20MB of valid JSON carrying an agent name. -/
def gzipBombRequest : Api.Request :=
  { method := "POST", contentLength := 10000, contentEncoding := "gzip",
    wireSize := 10000, gzipHeaderOk := true, decompressedSize := 20971520,
    payload := some { agentName := "agent-1", timestamp := 0, ec2Metadata := none,
                      systemMetrics := zeroSystemMetrics } }

/-- C8 (code evaluated at the failing input): the handler accepts a gzip body
whose decompressed content exceeds the configured maximum — it answers 200
and updates the State Store, because http.MaxBytesReader caps only the
compressed wire bytes and nothing on the reader stack bounds the decompressed
size; the claimed 413 rejection does not happen. -/
theorem C8_decompressed_cap_not_enforced :
    Api.maxRequestSize < (gzipBombRequest.decompressedSize : Int) ∧
    (Api.handleMetricsPush 7 Server.NewStateStore gzipBombRequest).1 = 200 ∧
    lookupA (Api.handleMetricsPush 7 Server.NewStateStore gzipBombRequest).2.agents
      "agent-1" ≠ none := by
  refine ⟨by decide, by decide, by decide⟩

theorem sendWithRetryGo_exhaust (base : Nat) (f : Nat → Except Agent.SendError Unit)
    (c : Nat → Bool) (e : Nat → Agent.SendError)
    (hf : ∀ k, f k = Except.error (e k))
    (hr : ∀ k, Agent.isRetryable (e k) = true)
    (hc : ∀ k, c k = false) :
    ∀ (fuel attempt : Nat) (waits : List Nat) (lastErr : Option Agent.SendError),
      Agent.sendWithRetryGo base f c fuel attempt waits lastErr =
        { result := .exhausted
            (if fuel = 0 then lastErr else some (e (attempt + fuel - 1))),
          attemptsMade := attempt + fuel,
          waits := waits ++
            (((List.range' attempt fuel).filter (fun k => decide (0 < k))).map
              (fun k => base * 2 ^ (k - 1))) }
  | 0, attempt, waits, lastErr => by
    simp [Agent.sendWithRetryGo]
  | fuel + 1, attempt, waits, lastErr => by
    have ih := sendWithRetryGo_exhaust base f c e hf hr hc fuel (attempt + 1)
      (if 0 < attempt then waits ++ [base * 2 ^ (attempt - 1)] else waits)
      (some (e attempt))
    unfold Agent.sendWithRetryGo
    rw [if_neg (by simp [hc attempt])]
    dsimp only
    rw [hf attempt]
    dsimp only
    rw [if_pos (hr attempt)]
    rw [ih]
    simp only [Agent.RetryTrace.mk.injEq, Agent.RetryResult.exhausted.injEq]
    refine ⟨?_, by omega, ?_⟩
    · rcases Nat.eq_zero_or_pos fuel with hz | hp
      · subst hz
        rw [if_pos rfl, if_neg (Nat.succ_ne_zero 0)]
        have harg : attempt + (0 + 1) - 1 = attempt := by omega
        rw [harg]
      · rw [if_neg (by omega), if_neg (by omega)]
        congr 2
        omega
    · rw [List.range'_succ, List.filter_cons]
      by_cases hA : 0 < attempt
      · rw [if_pos hA, if_pos (by simpa using hA)]
        simp [List.append_assoc]
      · rw [if_neg hA, if_neg (by simpa using hA)]

/-- The waits of a from-scratch all-retry run, rewritten over List.range. -/
theorem retryWaits_closed (base n : Nat) :
    ((List.range' 0 (n + 1)).filter (fun k => decide (0 < k))).map
      (fun k => base * 2 ^ (k - 1)) = (List.range n).map (fun k => base * 2 ^ k) := by
  rw [List.range'_succ, List.filter_cons]
  rw [if_neg (by simp)]
  have h1 : List.range' 1 n = (List.range n).map (fun j => 1 + j) := by
    rw [List.range'_eq_map_range]
  rw [h1]
  have h2 : (((List.range n).map (fun j => 1 + j)).filter (fun k => decide (0 < k)))
      = (List.range n).map (fun j => 1 + j) := by
    apply List.filter_eq_self.mpr
    intro k hk
    rcases List.mem_map.mp hk with ⟨j, _, rfl⟩
    simp
  rw [h2, List.map_map]
  apply List.map_congr_left
  intro j _
  simp [Function.comp, Nat.add_sub_cancel_left]

theorem sendWithRetryGo_cancel (base : Nat) (f : Nat → Except Agent.SendError Unit)
    (c : Nat → Bool) (j : Nat) (hj1 : 1 ≤ j) (hcj : c j = true)
    (hfail : ∀ k, k < j → ∃ ek, f k = Except.error ek ∧ Agent.isRetryable ek = true)
    (hcbefore : ∀ k, 1 ≤ k → k < j → c k = false) :
    ∀ (fuel attempt : Nat) (waits : List Nat) (lastErr : Option Agent.SendError),
      attempt ≤ j → j < attempt + fuel →
      (Agent.sendWithRetryGo base f c fuel attempt waits lastErr).result = .ctxErr ∧
      (Agent.sendWithRetryGo base f c fuel attempt waits lastErr).attemptsMade = j
  | 0, attempt, _, _, hle, hlt => absurd hlt (by omega)
  | fuel + 1, attempt, waits, lastErr, hle, hlt => by
    by_cases heq : attempt = j
    · subst heq
      unfold Agent.sendWithRetryGo
      rw [if_pos ⟨by omega, hcj⟩]
      exact ⟨rfl, rfl⟩
    · have hltj : attempt < j := by omega
      rcases hfail attempt hltj with ⟨ek, hfk, hrk⟩
      unfold Agent.sendWithRetryGo
      have hnc : ¬(0 < attempt ∧ c attempt = true) := by
        rintro ⟨hpos, hct⟩
        rw [hcbefore attempt (by omega) hltj] at hct
        exact Bool.false_ne_true hct
      rw [if_neg hnc]
      dsimp only
      rw [hfk]
      dsimp only
      rw [if_pos hrk]
      exact sendWithRetryGo_cancel base f c j hj1 hcj hfail hcbefore fuel (attempt + 1)
        _ _ (by omega) (by omega)

/-- C4: against attempts that all fail retryably, sendWithRetry performs
exactly 1 + maxRetries attempts, wraps the last failure, and its backoff
waits double from the configured base; a non-429 4xx on the first attempt
returns after exactly one attempt with no wait; context cancellation during a
backoff returns the context error with no further attempts. -/
theorem C4_send_with_retry_policy (maxRetries base : Nat)
    (f : Nat → Except Agent.SendError Unit) (c : Nat → Bool) :
    (∀ e : Nat → Agent.SendError,
      (∀ k, f k = Except.error (e k)) → (∀ k, Agent.isRetryable (e k) = true) →
      (∀ k, c k = false) →
      Agent.sendWithRetry maxRetries base f c =
        { result := .exhausted (some (e maxRetries)),
          attemptsMade := maxRetries + 1,
          waits := (List.range maxRetries).map (fun k => base * 2 ^ k) }) ∧
    (∀ (s : Nat) (msg : String), f 0 = Except.error (.http s msg) →
      400 ≤ s → s < 500 → s ≠ 429 →
      Agent.sendWithRetry maxRetries base f c =
        { result := .permanent (.http s msg), attemptsMade := 1, waits := [] }) ∧
    (∀ j : Nat, 1 ≤ j → j ≤ maxRetries → c j = true →
      (∀ k, k < j → ∃ ek, f k = Except.error ek ∧ Agent.isRetryable ek = true) →
      (∀ k, 1 ≤ k → k < j → c k = false) →
      (Agent.sendWithRetry maxRetries base f c).result = .ctxErr ∧
      (Agent.sendWithRetry maxRetries base f c).attemptsMade = j) := by
  refine ⟨?_, ?_, ?_⟩
  · intro e hf hr hc
    have h := sendWithRetryGo_exhaust base f c e hf hr hc (maxRetries + 1) 0 [] none
    rw [Agent.sendWithRetry, h]
    simp only [Agent.RetryTrace.mk.injEq, Agent.RetryResult.exhausted.injEq]
    refine ⟨?_, by omega, ?_⟩
    · rw [if_neg (Nat.succ_ne_zero maxRetries)]
      congr 2
      omega
    · rw [List.nil_append]
      exact retryWaits_closed base maxRetries
  · intro s msg hf0 h400 h500 h429
    have hnr : Agent.isRetryable (.http s msg) = false := by
      simp only [Agent.isRetryable, Bool.or_eq_false_iff,
        decide_eq_false_iff_not]
      exact ⟨by omega, h429⟩
    unfold Agent.sendWithRetry Agent.sendWithRetryGo
    rw [if_neg (by simp)]
    dsimp only
    rw [hf0]
    dsimp only
    rw [if_neg (by simp [hnr])]
    rw [if_neg (lt_irrefl 0)]
  · intro j hj1 hjm hcj hfail hcb
    exact sendWithRetryGo_cancel base f c j hj1 hcj hfail hcb (maxRetries + 1) 0 [] none
      (by omega) (by omega)

/-- Witness for C4 at NewSender-like concrete inputs (maxRetries 3, base 2):
an all-500 endpoint gives 4 attempts with waits 2, 4, 8; a 400 endpoint gives
one attempt; a context cancelled during the second backoff stops at 2
attempts with the context error. -/
theorem C4_witness :
    Agent.sendWithRetry 3 2 (fun _ => Except.error (.http 500 "srv"))
        (fun _ => false) =
      { result := .exhausted (some (.http 500 "srv")), attemptsMade := 4,
        waits := [2, 4, 8] } ∧
    Agent.sendWithRetry 3 2 (fun _ => Except.error (.http 400 "bad"))
        (fun _ => false) =
      { result := .permanent (.http 400 "bad"), attemptsMade := 1, waits := [] } ∧
    (Agent.sendWithRetry 3 2 (fun _ => Except.error (.http 500 "srv"))
        (fun k => k == 2)).result = .ctxErr ∧
    (Agent.sendWithRetry 3 2 (fun _ => Except.error (.http 500 "srv"))
        (fun k => k == 2)).attemptsMade = 2 := by
  have h500 := C4_send_with_retry_policy 3 2
    (fun _ => Except.error (.http 500 "srv")) (fun _ => false)
  have h400 := C4_send_with_retry_policy 3 2
    (fun _ => Except.error (.http 400 "bad")) (fun _ => false)
  have hctx := C4_send_with_retry_policy 3 2
    (fun _ => Except.error (.http 500 "srv")) (fun k => k == 2)
  have hcancel := hctx.2.2 2 (by omega) (by omega) rfl
    (fun k _ => ⟨.http 500 "srv", rfl, rfl⟩)
    (fun k h1 h2 => by
      have hk : k = 1 := by omega
      subst hk
      rfl)
  refine ⟨?_, ?_, hcancel.1, hcancel.2⟩
  · have h := h500.1 (fun _ => .http 500 "srv") (fun _ => rfl) (fun _ => rfl)
      (fun _ => rfl)
    rw [h]
    rfl
  · exact h400.2.1 400 "bad" rfl (by omega) (by omega) (by omega)

end Saviour
